import Mathlib

set_option maxRecDepth 8000

/-!
Shallow embedding of the output-dispatch core of libsigrokdecode
(src/type_decoder.c): the event converters ( convert_annotation,
convert_binary, convert_meta, convert_packet), the dispatcher
(Decoder_put) and the output-stream registry (Decoder_register).

Python payload values are modelled by the inductive PyObj; integers are
arbitrary-precision (as in CPython) and every narrowing the C code
performs (PyLong_AsLong into a C int, the guint parameter of
g_slist_nth_data, PyArg_ParseTuple's "i" format) is made explicit, on an
LP64 platform (C int = 32 bits, C long = long long = 64 bits).
Behaviour of the CPython and GLib API functions the code calls follows
their documented semantics:
  - PyList_Size / PyList_GetItem on a non-list set SystemError
    (PyErr_BadInternalCall) and return -1 / NULL;
  - PyList_GetItem with an out-of-range index sets IndexError and
    returns NULL; a type check macro applied to that NULL pointer
    dereferences it (undefined behaviour, modelled as .crash);
  - PyLong_AsLong / PyLong_AsLongLong on an integer outside the 64-bit
    range set OverflowError and return -1;
  - PyUnicode_AsASCIIString on a non-ASCII string returns NULL, which
    the code then hands to PyBytes_AsString (undefined behaviour,
    modelled as .crash); g_strdup of the resulting byte buffer stops at
    the first NUL byte;
  - g_slist_nth / g_slist_nth_data take a guint index and return NULL
    past the end of the list.
Floating point values are carried opaquely (a Nat identifying the
value); no claim depends on float arithmetic.
-/

/-- A Python object, restricted to the shapes the dispatch core inspects. -/
inductive PyObj where
  | int (v : Int)
  | float (bits : Nat)
  | str (s : String)
  | bytes (bs : List Nat)
  | list (xs : List PyObj)
  | tuple (xs : List PyObj)
  | pynone

/-- The five output kinds, in the order of the OUTPUT_TYPES table of
src/type_decoder.c (SRD_OUTPUT_ANN = 0, SRD_OUTPUT_PYTHON = 1,
SRD_OUTPUT_BINARY = 2, SRD_OUTPUT_META = 3, SRD_OUTPUT_PACKET = 4). -/
inductive OutputKind where
  | ann
  | python
  | binary
  | meta
  | packet
deriving Repr, DecidableEq

/-- GVariant value types a Meta stream may declare. -/
inductive MetaGV where
  | int64
  | double
deriving Repr, DecidableEq

/-- Python type objects Decoder_register compares the meta value type
against (only the pointers to PyLong_Type and PyFloat_Type matter). -/
inductive PyTypeTag where
  | tLong
  | tFloat
  | tStr
  | tBytes
  | tNone
deriving Repr, DecidableEq

/-- Kinds of Python exceptions the modelled code can leave set. -/
inductive ExcKind where
  | typeError
  | overflowError
  | systemError
deriving Repr, DecidableEq

/-- An output stream created by Decoder_register (struct srd_pd_output).
metaType is set only for Meta streams. -/
structure OutputStream where
  streamId : Nat
  kind : OutputKind
  protoId : String
  metaType : Option MetaGV
  metaName : Option String
  metaDescr : Option String
deriving Repr, DecidableEq

/-- The decoder definition's fixed class lists (di->decoder->annotations
and di->decoder->binary): each entry is the class's descriptor; only
presence at an index matters to the dispatch core. -/
structure DecoderDef where
  name : String
  annotations : List String
  binaryClasses : List String
deriving Repr, DecidableEq

/-- A downstream (stacked) decoder instance as seen from the forwarding
loop: its identity and whether its decode() call raises. -/
structure Downstream where
  instId : String
  decodeFails : Bool
deriving Repr, DecidableEq

/-- A decoder instance (struct srd_decoder_inst), restricted to the
fields Decoder_put reads. -/
structure DecoderInst where
  instId : String
  dec : DecoderDef
  pdOutput : List OutputStream
  nextDi : List Downstream
deriving Repr, DecidableEq

/-- Modelled from the spec: the per-session callback registry
(srd_pd_output_callback_find, in session.c, not under src/): at most one
frontend sink per output kind; we record only whether one is registered. -/
structure Session where
  sinks : OutputKind → Bool

/-! ### C integer narrowing helpers -/

/-- Truncation of a mathematical integer to a signed 32-bit C int
(two's complement wrap-around). -/
def toInt32 (v : Int) : Int :=
  (v + 2 ^ 31) % 2 ^ 32 - 2 ^ 31

/-- Conversion of a C int value to the guint parameter of
g_slist_nth / g_slist_nth_data (reduction mod 2^32, then viewed as a
nonnegative index). -/
def guintOfInt (v : Int) : Nat :=
  (v % (2 ^ 32 : Int)).toNat

/-- Whether a Python integer fits in a 64-bit C long / long long. -/
def inCLong (v : Int) : Prop :=
  -(2 ^ 63) ≤ v ∧ v < 2 ^ 63

instance : DecidablePred inCLong := fun v =>
  inferInstanceAs (Decidable (-(2 ^ 63) ≤ v ∧ v < 2 ^ 63))

/-- PyLong_AsLong / PyLong_AsLongLong: the returned C long (-1 on
overflow, with OverflowError set — see asCLongExc). -/
def asCLong (v : Int) : Int :=
  if inCLong v then v else -1

/-- The exception PyLong_AsLong / PyLong_AsLongLong leaves set. -/
def asCLongExc (v : Int) : Option ExcKind :=
  if inCLong v then none else some .overflowError

/-- The C int value obtained by storing PyLong_AsLong's result in an
int-typed variable (ann_class, bin_class, packet_num, ...). -/
def cIntOfPy (v : Int) : Int :=
  toInt32 (asCLong v)

/-- The effective list index those int-typed class ids produce when
passed to g_slist_nth_data's guint parameter. -/
def effIdx (v : Int) : Nat :=
  guintOfInt (cIntOfPy v)

/-! ### CPython API helpers -/

/-- PyList_Size: length for a list, -1 (with SystemError set, see
pyListSizeExc) for anything else. -/
def pyListSize : PyObj → Int
  | .list xs => xs.length
  | _ => -1

/-- The exception PyList_Size leaves set on a non-list. -/
def pyListSizeExc : PyObj → Option ExcKind
  | .list _ => none
  | _ => some .systemError

/-- PyTuple_Size: length for a tuple, -1 for anything else. -/
def pyTupleSize : PyObj → Int
  | .tuple xs => xs.length
  | _ => -1

/-- Whether every character of a string is ASCII, so that
PyUnicode_AsASCIIString succeeds. -/
def allAscii (s : String) : Bool :=
  s.toList.all (fun c => c.toNat < 128)

/-- The C string g_strdup(PyBytes_AsString(...)) captures from an ASCII
string: everything before the first NUL character. -/
def cStringOf (s : String) : String :=
  String.mk (s.toList.takeWhile (fun c => c ≠ Char.ofNat 0))

/-- Modelled from the spec: py_strseq_to_char (util.c, not under src/):
converts a sequence of strings to a C string array; it succeeds exactly
when every member is a string ("element 1 must be a sequence of strings
(rejecting any non-string member fails the whole conversion)"),
returning the member strings. -/
def py_strseq_to_char : List PyObj → Option (List String)
  | [] => some []
  | .str s :: rest => (py_strseq_to_char rest).map (fun ss => s :: ss)
  | _ :: _ => none

/-! ### Converter results and the typed event bodies -/

/-- The typed event body delivered to a sink callback (the data field
of struct srd_proto_data, by output kind). -/
inductive SinkBody where
  | ann (annClass : Int) (text : List String)
  | bin (binClass : Int) (bytes : List Nat)
  | metaI (v : Int)
  | metaD (bits : Nat)
  | metaUnset
  | pkt (annClass : Int) (ptype : Int) (packetNum : Int)
        (fieldName fieldValue : Option String)
  | raw (payload : PyObj)

/-- Outcome of running one converter: success or failure, recording
whether an srd_err diagnostic was emitted (log) and which Python
exception, if any, was left set (exc); .crash models a NULL-pointer
dereference (undefined behaviour). -/
inductive CvtRes where
  | ok (body : SinkBody) (exc : Option ExcKind)
  | err (log : Bool) (exc : Option ExcKind)
  | crash

/-- SRD_PACKET_LOCATION. Modelled from the spec: the packet subtype
constants live in libsigrokdecode.h (not under src/); the spec
enumerates the subtypes in the order Location, Field. -/
def SRD_PACKET_LOCATION : Int := 0

/-- SRD_PACKET_FIELD. Modelled from the spec: see SRD_PACKET_LOCATION. -/
def SRD_PACKET_FIELD : Int := 1

/-! ### The converters (translated from src/type_decoder.c) -/

/-- convert_annotation (src/type_decoder.c:38): payload must pass
PyList_Check or PyTuple_Check, have PyList_Size equal to 2 (which is -1
for a tuple, so tuples are in fact rejected at the size check), have an
integer first element naming a registered annotation class (read through
a C int and g_slist_nth_data's guint), and a list-of-strings second
element. -/
def convert_annotation (dec : DecoderDef) (obj : PyObj) : CvtRes :=
  match obj with
  | .list [e0, e1] =>
      match e0 with
      | .int v =>
          let annClass := cIntOfPy v
          let exc := asCLongExc v
          match dec.annotations[guintOfInt annClass]? with
          | none => .err true exc
          | some _ =>
              match e1 with
              | .list ys =>
                  match py_strseq_to_char ys with
                  | some ss => .ok (.ann annClass ss) exc
                  | none => .err true exc
              | _ => .err true exc
      | _ => .err true none
  | .list _ => .err true none
  | .tuple _ =>
      -- PyList_Size on the tuple sets SystemError and returns -1 ≠ 2.
      .err true (some .systemError)
  | _ => .err true none

/-- convert_binary (src/type_decoder.c:101): payload must be a 2-tuple
of an integer binary-class id (read through a C int and
g_slist_nth_data's guint) and a non-empty bytes object. -/
def convert_binary (dec : DecoderDef) (obj : PyObj) : CvtRes :=
  match obj with
  | .tuple [e0, e1] =>
      match e0 with
      | .int v =>
          let binClass := cIntOfPy v
          let exc := asCLongExc v
          match dec.binaryClasses[guintOfInt binClass]? with
          | none => .err true exc
          | some _ =>
              match e1 with
              | .bytes bs =>
                  if bs.isEmpty then .err true exc
                  else .ok (.bin binClass bs) exc
              | _ => .err true exc
      | _ => .err true none
  | _ => .err true none

/-- convert_meta (src/type_decoder.c:169): the payload's dynamic type
must match the stream's declared meta_type; mismatches raise TypeError
via PyErr_Format (no srd_err diagnostic); an integer outside the 64-bit
range fails PyLong_AsLongLong with OverflowError. -/
def convert_meta (mt : Option MetaGV) (obj : PyObj) : CvtRes :=
  match mt with
  | some .int64 =>
      match obj with
      | .int v =>
          if inCLong v then .ok (.metaI v) none
          else .err false (some .overflowError)
      | _ => .err false (some .typeError)
  | some .double =>
      match obj with
      | .float bits => .ok (.metaD bits) none
      | _ => .err false (some .typeError)
  | none =>
      -- Unreachable for streams created by Decoder_register: a Meta
      -- stream always has a declared meta type. The C code falls
      -- through both branches and returns SRD_OK with data unset.
      .ok .metaUnset none

/-- convert_packet (src/type_decoder.c:199): payload must be a list;
elements 0 and 1 are fetched with PyList_GetItem before any size check,
so a list with fewer than 2 elements yields NULL which is then passed
to PyLong_Check, dereferencing a NULL pointer (.crash). Element 0 is
an annotation-class id (through a C int and guint), element 1 a packet
subtype; SRD_PACKET_LOCATION needs exactly 3 elements, SRD_PACKET_FIELD
exactly 5 with string field name and value (converted through
PyUnicode_AsASCIIString, whose NULL result on non-ASCII input is
dereferenced — .crash — and whose buffer g_strdup truncates at NUL). -/
def convert_packet (dec : DecoderDef) (obj : PyObj) : CvtRes :=
  match obj with
  | .list xs =>
      match xs[0]? with
      | none => .crash
      | some e0 =>
        match e0 with
        | .int v =>
            let annClass := cIntOfPy v
            let exc0 := asCLongExc v
            match dec.annotations[guintOfInt annClass]? with
            | none => .err true exc0
            | some _ =>
                match xs[1]? with
                | none => .crash
                | some e1 =>
                  match e1 with
                  | .int w =>
                      let ptype := cIntOfPy w
                      let exc1 := exc0 <|> asCLongExc w
                      if ptype = SRD_PACKET_LOCATION then
                        if xs.length = 3 then
                          match xs[2]? with
                          | some (PyObj.int n) =>
                              .ok (.pkt annClass ptype (cIntOfPy n) none none)
                                 (exc1 <|> asCLongExc n)
                          | _ => .err true exc1
                        else .err true exc1
                      else if ptype = SRD_PACKET_FIELD then
                        if xs.length = 5 then
                          match xs[2]? with
                          | some (PyObj.int n) =>
                              match xs[3]? with
                              | some (PyObj.str fn) =>
                                  if allAscii fn then
                                    match xs[4]? with
                                    | some (PyObj.str fv) =>
                                        if allAscii fv then
                                          .ok (.pkt annClass ptype (cIntOfPy n)
                                                (some (cStringOf fn))
                                                (some (cStringOf fv)))
                                             (exc1 <|> asCLongExc n)
                                        else .crash
                                    | _ => .err true (exc1 <|> asCLongExc n)
                                  else .crash
                              | _ => .err true (exc1 <|> asCLongExc n)
                          | _ => .err true exc1
                        else .err true exc1
                      else .err true exc1
                  | _ => .err true exc0
        | _ => .err true none
  | _ => .err true none

/-! ### The dispatcher (Decoder_put, src/type_decoder.c:323) -/

/-- An observable effect of one Decoder_put call, in order: a
decode() call on a downstream instance, a sink callback invocation
(with the converted body), an srd_err diagnostic line, or a Python
exception left set (PyErr). -/
inductive Event where
  | decodeCall (instId : String) (startSample endSample : Nat) (payload : PyObj)
  | sinkCall (kind : OutputKind) (startSample endSample : Nat) (body : SinkBody)
  | logErr
  | pyExc (k : ExcKind)

/-- How one Decoder_put call returns: Py_RETURN_NONE (.ok), returning
NULL to the interpreter (.nullRet), or a NULL-pointer dereference
inside a converter (.crash). -/
inductive PutResult where
  | ok
  | nullRet
  | crash
deriving Repr, DecidableEq

/-- The full observable outcome of one Decoder_put call. -/
structure PutOut where
  events : List Event
  result : PutResult

/-- The events of the stack-forwarding loop (the for loops over
di->next_di at src/type_decoder.c:382 and 423): each downstream
instance's decode() is called in list order; a failing call is caught
by srd_exception_catch (one diagnostic) and the loop continues. -/
def forwardEvents (ds : List Downstream) (startS endS : Nat) (payload : PyObj) :
    List Event :=
  ds.flatMap fun d =>
    .decodeCall d.instId startS endS payload ::
      (if d.decodeFails then [.logErr] else [])

/-- The event a pending Python exception contributes. -/
def excEvents : Option ExcKind → List Event
  | none => []
  | some k => [.pyExc k]

/-- The events of one convert-and-deliver attempt inside a sink branch
of Decoder_put: diagnostics and exceptions from the converter, then the
sink callback on success. -/
def sinkEvents (kind : OutputKind) (startS endS : Nat) : CvtRes → List Event
  | .ok body exc => excEvents exc ++ [.sinkCall kind startS endS body]
  | .err log exc => (if log then [.logErr] else []) ++ excEvents exc
  | .crash => []

/-- Whether a converter outcome crashes the process. -/
def cvtCrashes : CvtRes → Bool
  | .crash => true
  | _ => false

/-- The switch statement of Decoder_put (src/type_decoder.c:369):
dispatch on the resolved stream's output kind. Annotation, Binary and
Meta convert-and-deliver only when a sink is registered for the kind;
OUTPUT_PYTHON forwards the raw payload to every downstream instance and
then delivers it raw to a sink when one is registered; OUTPUT_PACKET
forwards like OUTPUT_PYTHON and then convert-and-delivers when a sink
is registered. -/
def dispatchKind (di : DecoderInst) (sess : Session) (startS endS : Nat)
    (payload : PyObj) (pdo : OutputStream) : PutOut :=
  match pdo.kind with
      | .ann =>
          if sess.sinks .ann then
            let r := convert_annotation di.dec payload
            ⟨sinkEvents .ann startS endS r,
             if cvtCrashes r then .crash else .ok⟩
          else ⟨[], .ok⟩
      | .python =>
          let fw := forwardEvents di.nextDi startS endS payload
          if sess.sinks .python then
            ⟨fw ++ [.sinkCall .python startS endS (.raw payload)], .ok⟩
          else ⟨fw, .ok⟩
      | .binary =>
          if sess.sinks .binary then
            let r := convert_binary di.dec payload
            ⟨sinkEvents .binary startS endS r,
             if cvtCrashes r then .crash else .ok⟩
          else ⟨[], .ok⟩
      | .meta =>
          if sess.sinks .meta then
            let r := convert_meta pdo.metaType payload
            ⟨sinkEvents .meta startS endS r,
             if cvtCrashes r then .crash else .ok⟩
          else ⟨[], .ok⟩
      | .packet =>
          let fw := forwardEvents di.nextDi startS endS payload
          if sess.sinks .packet then
            let r := convert_packet di.dec payload
            ⟨fw ++ sinkEvents .packet startS endS r,
             if cvtCrashes r then .crash else .ok⟩
          else ⟨fw, .ok⟩

/-- Decoder_put (src/type_decoder.c:323), after the calling instance
has been resolved: PyArg_ParseTuple's "i" format rejects a stream id
outside the C int range (OverflowError, NULL return, nothing else
happens); the stream is then looked up with g_slist_nth (guint index),
an unknown id being logged and aborting the call; dispatch by kind is
dispatchKind above. -/
def Decoder_put (di : DecoderInst) (sess : Session) (startS endS : Nat)
    (outputId : Int) (payload : PyObj) : PutOut :=
  if outputId < -(2 ^ 31) ∨ 2 ^ 31 ≤ outputId then
    ⟨[.pyExc .overflowError], .nullRet⟩
  else
    match di.pdOutput[guintOfInt outputId]? with
    | none => ⟨[.logErr], .nullRet⟩
    | some pdo => dispatchKind di sess startS endS payload pdo

/-- The downstream decode() calls contained in an event list, in order. -/
def decodeCalls (evs : List Event) : List (String × Nat × Nat × PyObj) :=
  evs.filterMap fun e =>
    match e with
    | .decodeCall i s t p => some (i, s, t, p)
    | _ => none

/-- The sink callback invocations contained in an event list, in order. -/
def sinkCalls (evs : List Event) : List (OutputKind × Nat × Nat × SinkBody) :=
  evs.filterMap fun e =>
    match e with
    | .sinkCall k s t b => some (k, s, t, b)
    | _ => none

/-- Whether an event list contains an srd_err diagnostic. -/
def hasLogErr (evs : List Event) : Bool :=
  evs.any fun e =>
    match e with
    | .logErr => true
    | _ => false

/-- Whether an event list contains a Python exception left set. -/
def hasPyExc (evs : List Event) : Bool :=
  evs.any fun e =>
    match e with
    | .pyExc _ => true
    | _ => false

/-! ### The registry (Decoder_register, src/type_decoder.c:456) -/

/-- Outcome of one Decoder_register call: the fresh stream id returned
to Python, a NULL return with an exception set, or the NULL dereference
that happens when output_type is SRD_OUTPUT_META but no meta type tuple
was supplied (meta_type_py stays NULL and PyErr_Format dereferences
meta_type_py->tp_name). -/
inductive RegResult where
  | id (n : Nat)
  | err (k : ExcKind)
  | crash
deriving Repr, DecidableEq

/-- Decoder_register (src/type_decoder.c:456), after the calling
instance has been resolved: for SRD_OUTPUT_META the declared value type
must be exactly the Python int type (G_VARIANT_TYPE_INT64) or float
type (G_VARIANT_TYPE_DOUBLE) — anything else raises TypeError and
creates nothing; otherwise a new srd_pd_output is appended to
di->pd_output with pdo_id equal to the list's current length. -/
def Decoder_register (streams : List OutputStream) (outputType : OutputKind)
    (protoId : String) (meta : Option (PyTypeTag × String × String)) :
    RegResult × List OutputStream :=
  if outputType = .meta then
    match meta with
    | some (.tLong, n, d) =>
        (.id streams.length,
         streams ++ [⟨streams.length, outputType, protoId,
                      some .int64, some n, some d⟩])
    | some (.tFloat, n, d) =>
        (.id streams.length,
         streams ++ [⟨streams.length, outputType, protoId,
                      some .double, some n, some d⟩])
    | some _ => (.err .typeError, streams)
    | none => (.crash, streams)
  else
    (.id streams.length,
     streams ++ [⟨streams.length, outputType, protoId, none, none, none⟩])

/-- One register call description, for iterating Decoder_register. -/
structure RegCall where
  outputType : OutputKind
  protoId : String
  meta : Option (PyTypeTag × String × String)

/-- A register call that succeeds: a Meta stream must declare the
Python int or float type. -/
def RegCall.valid (c : RegCall) : Prop :=
  c.outputType = .meta →
    (∃ n d, c.meta = some (.tLong, n, d)) ∨ (∃ n d, c.meta = some (.tFloat, n, d))

/-- Iterate Decoder_register over a list of calls, collecting the
results and the final stream list. -/
def registerAll (calls : List RegCall) (streams : List OutputStream) :
    List RegResult × List OutputStream :=
  match calls with
  | [] => ([], streams)
  | c :: rest =>
      let (r, streams') := Decoder_register streams c.outputType c.protoId c.meta
      let (rs, streamsF) := registerAll rest streams'
      (r :: rs, streamsF)

/-! ### Concrete sample instances used by witnesses and counterexamples -/

/-- A sample decoder definition with one annotation class and one
binary class. -/
def sampleDec : DecoderDef := ⟨"dec", ["c0"], ["b0"]⟩

/-- A sample instance exposing one stream of every kind, in the order
the five kinds are numbered, with two downstream instances of which the
second one's decode() raises. -/
def sampleDi : DecoderInst :=
  ⟨"i0", sampleDec,
   [⟨0, .ann, "p", none, none, none⟩,
    ⟨1, .python, "p", none, none, none⟩,
    ⟨2, .binary, "p", none, none, none⟩,
    ⟨3, .meta, "p", some .int64, some "n", some "d"⟩,
    ⟨4, .meta, "p", some .double, some "n", some "d"⟩,
    ⟨5, .packet, "p", none, none, none⟩],
   [⟨"down1", false⟩, ⟨"down2", true⟩]⟩

/-- A session with a sink registered for every output kind. -/
def sessionAll : Session := ⟨fun _ => true⟩

/-- A session with no sink registered at all. -/
def sessionNone : Session := ⟨fun _ => false⟩

/-! ### Helper lemmas -/

theorem decodeCalls_append (a b : List Event) :
    decodeCalls (a ++ b) = decodeCalls a ++ decodeCalls b := by
  simp [decodeCalls, List.filterMap_append]

theorem decodeCalls_forwardEvents (ds : List Downstream) (s e : Nat) (p : PyObj) :
    decodeCalls (forwardEvents ds s e p) = ds.map fun d => (d.instId, s, e, p) := by
  induction ds with
  | nil => rfl
  | cons d ds ih =>
      by_cases hf : d.decodeFails <;>
        simp [forwardEvents, decodeCalls, hf] <;>
        simpa [forwardEvents, decodeCalls] using ih

theorem decodeCalls_excEvents (x : Option ExcKind) : decodeCalls (excEvents x) = [] := by
  cases x <;> rfl

theorem decodeCalls_sinkEvents (k : OutputKind) (s e : Nat) (r : CvtRes) :
    decodeCalls (sinkEvents k s e r) = [] := by
  cases r with
  | ok body exc => cases exc <;> rfl
  | err log exc => cases log <;> cases exc <;> rfl
  | crash => rfl

theorem decodeCalls_nil : decodeCalls [] = [] := rfl

theorem decodeCalls_sink_single (k : OutputKind) (s e : Nat) (b : SinkBody) :
    decodeCalls [.sinkCall k s e b] = [] := rfl

theorem py_strseq_iff (ys : List PyObj) (ss : List String) :
    py_strseq_to_char ys = some ss ↔ ys = ss.map PyObj.str := by
  induction ys generalizing ss with
  | nil =>
      cases ss <;> simp [py_strseq_to_char]
  | cons y ys ih =>
      cases y with
      | str s =>
          constructor
          · intro h
            rw [py_strseq_to_char] at h
            rcases hys : py_strseq_to_char ys with _ | us
            · rw [hys] at h; simp at h
            · rw [hys] at h
              simp only [Option.map_some', Option.some.injEq] at h
              subst h
              simp [List.map_cons, (ih us).mp hys]
          · intro h
            cases ss with
            | nil => simp at h
            | cons t ts =>
                simp only [List.map_cons, List.cons.injEq] at h
                obtain ⟨h1, h2⟩ := h
                cases h1
                rw [py_strseq_to_char, (ih ts).mpr h2]
                rfl
      | int v => cases ss <;> simp [py_strseq_to_char]
      | float b => cases ss <;> simp [py_strseq_to_char]
      | bytes bs => cases ss <;> simp [py_strseq_to_char]
      | list xs => cases ss <;> simp [py_strseq_to_char]
      | tuple xs => cases ss <;> simp [py_strseq_to_char]
      | pynone => cases ss <;> simp [py_strseq_to_char]

/-- For a class list no longer than 2^31, a successful guint lookup of a
truncated class id forces the Python integer to be within the 64-bit
range. -/
theorem inCLong_of_effIdx_lt (v : Int) (n : Nat) (hn : n ≤ 2 ^ 31)
    (h : effIdx v < n) : inCLong v := by
  by_contra hc
  have h1 : cIntOfPy v = -1 := by
    simp [cIntOfPy, asCLong, hc, toInt32]
  have h2 : effIdx v = 2 ^ 32 - 1 := by
    simp [effIdx, h1, guintOfInt]
  omega


/-- One valid Decoder_register call appends a stream carrying the next
dense id and returns that id. -/
theorem register_step (st : List OutputStream) (c : RegCall) (h : c.valid) :
    ∃ s, Decoder_register st c.outputType c.protoId c.meta =
      (.id st.length, st ++ [s]) ∧ s.streamId = st.length := by
  by_cases hk : c.outputType = .meta
  · rcases h hk with ⟨n, d, hm⟩ | ⟨n, d, hm⟩
    · exact ⟨⟨st.length, c.outputType, c.protoId, some .int64, some n, some d⟩,
        by simp [Decoder_register, hk, hm], rfl⟩
    · exact ⟨⟨st.length, c.outputType, c.protoId, some .double, some n, some d⟩,
        by simp [Decoder_register, hk, hm], rfl⟩
  · exact ⟨⟨st.length, c.outputType, c.protoId, none, none, none⟩,
      by simp [Decoder_register, hk], rfl⟩

/-- Iterating valid register calls from any starting registry yields the
dense id sequence continuing from the current count, only ever appending. -/
theorem registerAll_go (calls : List RegCall) (st : List OutputStream)
    (h : ∀ c ∈ calls, c.valid) :
    (registerAll calls st).1 =
      (List.range' st.length calls.length).map RegResult.id ∧
    (registerAll calls st).2.map OutputStream.streamId =
      st.map OutputStream.streamId ++ List.range' st.length calls.length := by
  induction calls generalizing st with
  | nil => simp [registerAll]
  | cons c rest ih =>
      obtain ⟨s, hreg, hsid⟩ := register_step st c (h c (by simp))
      have hrest := ih (st ++ [s]) (fun c hc => h c (by simp [hc]))
      rw [List.length_append, List.length_singleton] at hrest
      simp only [registerAll, hreg, List.range'_succ, List.map_cons]
      constructor
      · exact congrArg _ hrest.1
      · rw [hrest.2]
        simp [hsid]
        exact (List.range'_succ _ _ _).symm


/-! ### Claim C8 -/

/-- C8: on every fresh decoder instance, N successive (valid) register
calls return the dense stream ids 0 through N-1 in call order; each
call returns the current stream count as the new id and appends the new
stream at the end, leaving every existing stream (and its id) in place. -/
theorem C8_register_dense_ids :
    (∀ (st : List OutputStream) (c : RegCall), c.valid →
       ∃ s, Decoder_register st c.outputType c.protoId c.meta =
              (.id st.length, st ++ [s]) ∧
            s.streamId = st.length) ∧
    (∀ calls : List RegCall, (∀ c ∈ calls, c.valid) →
       (registerAll calls []).1 =
         (List.range calls.length).map RegResult.id ∧
       (registerAll calls []).2.map OutputStream.streamId =
         List.range calls.length) := by
  refine ⟨register_step, fun calls h => ?_⟩
  have hgo := registerAll_go calls [] h
  simpa [List.range_eq_range'] using hgo

/-- Witness for C8: two concrete register calls (an Annotation stream,
then an Int64 Meta stream) on a fresh instance yield ids 0 and 1 in
order, and the final registry carries ids 0 and 1. -/
theorem C8_register_dense_ids_witness :
    (registerAll [⟨.ann, "p", none⟩, ⟨.meta, "m", some (.tLong, "n", "d")⟩]
        []).1 = [.id 0, .id 1] ∧
    (registerAll [⟨.ann, "p", none⟩, ⟨.meta, "m", some (.tLong, "n", "d")⟩]
        []).2.map OutputStream.streamId = [0, 1] := by
  have h := C8_register_dense_ids.2
    [⟨.ann, "p", none⟩, ⟨.meta, "m", some (.tLong, "n", "d")⟩]
    (by
      intro c hc
      simp only [List.mem_cons, List.mem_singleton] at hc
      rcases hc with h1 | h1 | h1
      · subst h1; intro hk; cases hk
      · subst h1; exact fun _ => Or.inl ⟨"n", "d", rfl⟩
      · cases h1)
  simpa [List.range] using h

/-! ### Claim C9 -/

/-- C9: Decoder_register with kind Meta and a declared value type other
than the Python int type (Int64) or float type (Double) fails with a
TypeError reported to the caller (the InvalidMetaType error of the
spec) and creates no stream: the registry is returned unchanged. -/
theorem C9_register_invalid_meta (st : List OutputStream) (pid n d : String)
    (t : PyTypeTag) (h1 : t ≠ .tLong) (h2 : t ≠ .tFloat) :
    Decoder_register st .meta pid (some (t, n, d)) = (.err .typeError, st) := by
  cases t <;> simp_all [Decoder_register]

/-- Witness for C9: registering a Meta stream declaring the Python str
type fails with TypeError and leaves a one-stream registry unchanged. -/
theorem C9_register_invalid_meta_witness :
    Decoder_register [⟨0, .ann, "p", none, none, none⟩] .meta "m"
        (some (.tStr, "n", "d")) =
      (.err .typeError, [⟨0, .ann, "p", none, none, none⟩]) :=
  C9_register_invalid_meta [⟨0, .ann, "p", none, none, none⟩] "m" "n" "d"
    .tStr (by decide) (by decide)

/-! ### Claim C6 -/

/-- C6: the code bug behind the claim. A Packet-kind put with a Packet
sink registered and an empty-list payload does not terminate with a
validation failure: convert_packet fetches elements 0 and 1 with
PyList_GetItem before any size check, gets NULL, and hands it to
PyLong_Check — a NULL-pointer dereference (modelled as .crash), where
the claim (and the spec's "out of range is a failure, not a crash")
demands a logged rejection that keeps the pipeline running. The
one-element list crashes the same way at element 1. -/
theorem C6_short_packet_list_crashes :
    convert_packet sampleDec (.list []) = .crash ∧
    convert_packet sampleDec (.list [.int 0]) = .crash ∧
    (Decoder_put sampleDi sessionAll 0 0 5 (.list [])).result = .crash :=
  ⟨rfl, rfl, rfl⟩


/-- Once the stream id (a C int) resolves to a stream, Decoder_put is
exactly the kind dispatch on that stream. -/
theorem put_resolved (di : DecoderInst) (sess : Session) (s e : Nat)
    (oid : Int) (payload : PyObj) (pdo : OutputStream)
    (h32 : -(2 ^ 31) ≤ oid ∧ oid < 2 ^ 31)
    (hres : di.pdOutput[guintOfInt oid]? = some pdo) :
    Decoder_put di sess s e oid payload =
      dispatchKind di sess s e payload pdo := by
  unfold Decoder_put
  rw [if_neg (by omega), hres]

/-! ### Claim C2 -/

/-- C10: when no sink is registered for the resolved stream's kind, a
put on an Annotation, Binary, Meta or Packet stream never reaches the
converter: whatever the payload — malformed or not — there is no
validation failure, no diagnostic and no exception; the call returns
None (success). Annotation, Binary and Meta calls produce no event at
all, and a Packet call still performs exactly the downstream
forwarding. -/
theorem C10_no_sink_skips_converter (di : DecoderInst) (sess : Session)
    (s e : Nat) (oid : Int) (payload : PyObj) (pdo : OutputStream)
    (h32 : -(2 ^ 31) ≤ oid ∧ oid < 2 ^ 31)
    (hres : di.pdOutput[guintOfInt oid]? = some pdo)
    (hsink : sess.sinks pdo.kind = false) :
    ((pdo.kind = .ann ∨ pdo.kind = .binary ∨ pdo.kind = .meta) →
        Decoder_put di sess s e oid payload = ⟨[], .ok⟩) ∧
    (pdo.kind = .packet →
        Decoder_put di sess s e oid payload =
          ⟨forwardEvents di.nextDi s e payload, .ok⟩) := by
  rw [put_resolved di sess s e oid payload pdo h32 hres]
  unfold dispatchKind
  constructor
  · rintro (hk | hk | hk) <;> rw [hk] at hsink ⊢ <;> simp [hsink]
  · intro hk
    rw [hk] at hsink ⊢
    simp [hsink]

/-- Witness for C10: with no sinks registered, putting the malformed
empty-list payload (which would crash the Packet converter, see the C6
theorem) on the sample Packet stream forwards to both downstream
instances and returns success, with no conversion attempted. -/
theorem C10_no_sink_skips_converter_witness :
    Decoder_put sampleDi sessionNone 3 4 5 (.list []) =
      ⟨forwardEvents sampleDi.nextDi 3 4 (.list []), .ok⟩ :=
  (C10_no_sink_skips_converter sampleDi sessionNone 3 4 5 (.list [])
      ⟨5, .packet, "p", none, none, none⟩
      (by constructor <;> decide) rfl rfl).2 rfl

/-! ### Claim C1 -/

/-- C1: downstream forwarding depends only on the resolved stream's
kind. For OUTPUT_PYTHON (Passthrough) and OUTPUT_PACKET streams, every
downstream instance receives a decode(start_sample, end_sample,
payload) call, in registration order, regardless of which downstream
calls fail (failures are caught by srd_exception_catch and the loop
continues); for Annotation, Binary and Meta streams no downstream
decode() call ever happens. -/
theorem C1_forwarding_by_kind (di : DecoderInst) (sess : Session) (s e : Nat)
    (oid : Int) (payload : PyObj) (pdo : OutputStream)
    (h32 : -(2 ^ 31) ≤ oid ∧ oid < 2 ^ 31)
    (hres : di.pdOutput[guintOfInt oid]? = some pdo) :
    ((pdo.kind = .python ∨ pdo.kind = .packet) →
        decodeCalls (Decoder_put di sess s e oid payload).events =
          di.nextDi.map fun d => (d.instId, s, e, payload)) ∧
    ((pdo.kind = .ann ∨ pdo.kind = .binary ∨ pdo.kind = .meta) →
        decodeCalls (Decoder_put di sess s e oid payload).events = []) := by
  rw [put_resolved di sess s e oid payload pdo h32 hres]
  unfold dispatchKind
  constructor
  · rintro (hk | hk)
    · rw [hk]
      by_cases hs : sess.sinks .python <;>
        simp [hs, decodeCalls_append, decodeCalls_forwardEvents,
              decodeCalls_sink_single]
    · rw [hk]
      by_cases hs : sess.sinks .packet <;>
        simp [hs, decodeCalls_append, decodeCalls_forwardEvents,
              decodeCalls_sinkEvents]
  · rintro (hk | hk | hk)
    · rw [hk]
      by_cases hs : sess.sinks .ann <;>
        simp [hs, decodeCalls_sinkEvents, decodeCalls_nil]
    · rw [hk]
      by_cases hs : sess.sinks .binary <;>
        simp [hs, decodeCalls_sinkEvents, decodeCalls_nil]
    · rw [hk]
      by_cases hs : sess.sinks .meta <;>
        simp [hs, decodeCalls_sinkEvents, decodeCalls_nil]

/-- Witness for C1: a Packet put on the sample instance (both sinks and
a failing second downstream present) calls decode on down1 then down2,
in order, even though the payload is junk and down2's decode raises;
an Annotation put on the same instance produces no decode call. -/
theorem C1_forwarding_by_kind_witness :
    decodeCalls (Decoder_put sampleDi sessionAll 7 9 5 .pynone).events =
      [("down1", 7, 9, PyObj.pynone), ("down2", 7, 9, PyObj.pynone)] ∧
    decodeCalls (Decoder_put sampleDi sessionAll 7 9 0 .pynone).events = [] :=
  ⟨((C1_forwarding_by_kind sampleDi sessionAll 7 9 5 .pynone
        ⟨5, .packet, "p", none, none, none⟩
        (by constructor <;> decide) rfl).1 (Or.inr rfl)).trans rfl,
   (C1_forwarding_by_kind sampleDi sessionAll 7 9 0 .pynone
        ⟨0, .ann, "p", none, none, none⟩
        (by constructor <;> decide) rfl).2 (Or.inl rfl)⟩


/-! ### Claim C4 -/

/-- C3 as stated is false: the Annotation converter does not reject
every out-of-range class index. The integer 2^32 indexes no existing
AnnotationClass of the one-class sample decoder, yet the conversion
succeeds — ann_class is a C int, so PyLong_AsLong's 64-bit result is
truncated to 0, which g_slist_nth_data then finds — and the delivered
class id is 0, not 2^32. -/
theorem C3_claim_counterexample :
    convert_annotation sampleDec (.list [.int (2 ^ 32), .list [.str "a"]]) =
      .ok (.ann 0 ["a"]) none ∧
    ¬ ((2 ^ 32 : Int) < sampleDec.annotations.length) :=
  ⟨rfl, by decide⟩

/-- C3 amended: for a decoder with at most 2^31 annotation classes, the
Annotation converter succeeds exactly on payloads that are a 2-element
Python list whose element 0 is an integer whose value truncated to a C
int and read as a guint (reduction mod 2^32; integers outside the
signed 64-bit range read as 2^32 - 1) indexes an existing
AnnotationClass, and whose element 1 is a Python list of strings; the
delivered event carries the truncated class id and the exact text
sequence, with no pending exception. (The truncation, and element 1
being specifically a list — a tuple of strings is rejected because
py_strseq_to_char is reached only behind PyList_Check — are the
amendments the code forces.) -/
theorem C3_annotation_exact (dec : DecoderDef) (p : PyObj) (c : Int)
    (txt : List String) (exc : Option ExcKind)
    (hlen : dec.annotations.length ≤ 2 ^ 31) :
    convert_annotation dec p = .ok (.ann c txt) exc ↔
      ∃ v ss, p = .list [.int v, .list (ss.map PyObj.str)] ∧
        effIdx v < dec.annotations.length ∧
        c = cIntOfPy v ∧ txt = ss ∧ exc = none := by
  constructor
  · intro h
    match p with
    | .list [] => simp [ convert_annotation] at h
    | .list [_] => simp [ convert_annotation] at h
    | .list (_ :: _ :: _ :: _) => simp [ convert_annotation] at h
    | .tuple _ => simp [ convert_annotation] at h
    | .int _ => simp [ convert_annotation] at h
    | .float _ => simp [ convert_annotation] at h
    | .str _ => simp [ convert_annotation] at h
    | .bytes _ => simp [ convert_annotation] at h
    | .pynone => simp [ convert_annotation] at h
    | .list [e0, e1] =>
      match e0 with
      | .float _ => simp [ convert_annotation] at h
      | .str _ => simp [ convert_annotation] at h
      | .bytes _ => simp [ convert_annotation] at h
      | .list _ => simp [ convert_annotation] at h
      | .tuple _ => simp [ convert_annotation] at h
      | .pynone => simp [ convert_annotation] at h
      | .int v =>
        rcases hget : dec.annotations[guintOfInt (cIntOfPy v)]? with _ | a
        · simp [ convert_annotation, hget] at h
        · have hlt : effIdx v < dec.annotations.length := by
            rcases List.getElem?_eq_some_iff.mp hget with ⟨hh, _⟩
            exact hh
          have hcl : inCLong v := inCLong_of_effIdx_lt v _ hlen hlt
          match e1 with
          | .int _ => simp [ convert_annotation, hget] at h
          | .float _ => simp [ convert_annotation, hget] at h
          | .str _ => simp [ convert_annotation, hget] at h
          | .bytes _ => simp [ convert_annotation, hget] at h
          | .tuple _ => simp [ convert_annotation, hget] at h
          | .pynone => simp [ convert_annotation, hget] at h
          | .list ys =>
            rcases hseq : py_strseq_to_char ys with _ | ss
            · simp [ convert_annotation, hget, hseq] at h
            · simp only [ convert_annotation, hget, hseq,
                CvtRes.ok.injEq, SinkBody.ann.injEq] at h
              obtain ⟨⟨hc, htxt⟩, hexc⟩ := h
              refine ⟨v, ss, ?_, hlt, hc.symm, htxt.symm, ?_⟩
              · rw [(py_strseq_iff ys ss).mp hseq]
              · rw [← hexc]
                simp [asCLongExc, hcl]
  · rintro ⟨v, ss, hp, hlt, hc, htxt, hexc⟩
    have hcl : inCLong v := inCLong_of_effIdx_lt v _ hlen hlt
    rcases hget : dec.annotations[guintOfInt (cIntOfPy v)]? with _ | a
    · exact absurd (List.getElem?_eq_none_iff.mp hget) (Nat.not_le.mpr hlt)
    · rw [hp]
      simp only [ convert_annotation, hget,
        (py_strseq_iff (List.map PyObj.str ss) ss).mpr rfl]
      rw [hc, htxt, hexc]
      simp [asCLongExc, hcl]

/-- Witness for C3 (amended): a valid 2-element list payload with class
id 0 and text list of strings converts to exactly that annotation. -/
theorem C3_annotation_exact_witness :
    convert_annotation sampleDec
        (.list [.int 0, .list [.str "a", .str "b"]]) =
      .ok (.ann 0 ["a", "b"]) none :=
  (C3_annotation_exact sampleDec
      (.list [.int 0, .list [.str "a", .str "b"]]) 0 ["a", "b"] none
      (by decide)).mpr
    ⟨0, ["a", "b"], rfl, by decide, by decide, rfl, rfl⟩


/-! ### Claim C7 -/

/-- C7 as stated is false in its rejection half: the Binary converter
does not reject every class index that references no declared
BinaryClass. The integer 2^32 references no class of the one-class
sample decoder, yet the conversion succeeds with bin_class 0 (C int
truncation of PyLong_AsLong's result). -/
theorem C7_claim_counterexample :
    convert_binary sampleDec (.tuple [.int (2 ^ 32), .bytes [1]]) =
      .ok (.bin 0 [1]) none ∧
    ¬ ((2 ^ 32 : Int) < sampleDec.binaryClasses.length) :=
  ⟨rfl, by decide⟩

/-- C7 amended: for a decoder with at most 2^31 binary classes, the
Binary converter succeeds exactly on payloads that are a 2-element
tuple whose element 0 is an integer whose C-int truncation read as a
guint (reduction mod 2^32; out-of-64-bit integers read as 2^32 - 1)
indexes a declared BinaryClass and whose element 1 is a non-empty bytes
object; the delivered event carries exactly those bytes and the
truncated bin_class. In particular an empty bytes payload is always
rejected (EmptyBinaryPayload), which is the first half of the claim,
unchanged. -/
theorem C7_binary_exact (dec : DecoderDef) (p : PyObj) (c : Int)
    (bs : List Nat) (exc : Option ExcKind)
    (hlen : dec.binaryClasses.length ≤ 2 ^ 31) :
    convert_binary dec p = .ok (.bin c bs) exc ↔
      ∃ v, p = .tuple [.int v, .bytes bs] ∧
        effIdx v < dec.binaryClasses.length ∧
        c = cIntOfPy v ∧ bs ≠ [] ∧ exc = none := by
  constructor
  · intro h
    match p with
    | .tuple [] => simp [convert_binary] at h
    | .tuple [_] => simp [convert_binary] at h
    | .tuple (_ :: _ :: _ :: _) => simp [convert_binary] at h
    | .list _ => simp [convert_binary] at h
    | .int _ => simp [convert_binary] at h
    | .float _ => simp [convert_binary] at h
    | .str _ => simp [convert_binary] at h
    | .bytes _ => simp [convert_binary] at h
    | .pynone => simp [convert_binary] at h
    | .tuple [e0, e1] =>
      match e0 with
      | .float _ => simp [convert_binary] at h
      | .str _ => simp [convert_binary] at h
      | .bytes _ => simp [convert_binary] at h
      | .list _ => simp [convert_binary] at h
      | .tuple _ => simp [convert_binary] at h
      | .pynone => simp [convert_binary] at h
      | .int v =>
        rcases hget : dec.binaryClasses[guintOfInt (cIntOfPy v)]? with _ | a
        · simp [convert_binary, hget] at h
        · have hlt : effIdx v < dec.binaryClasses.length := by
            rcases List.getElem?_eq_some_iff.mp hget with ⟨hh, _⟩
            exact hh
          have hcl : inCLong v :=
            inCLong_of_effIdx_lt v _ hlen (by exact hlt)
          match e1 with
          | .int _ => simp [convert_binary, hget] at h
          | .float _ => simp [convert_binary, hget] at h
          | .str _ => simp [convert_binary, hget] at h
          | .list _ => simp [convert_binary, hget] at h
          | .tuple _ => simp [convert_binary, hget] at h
          | .pynone => simp [convert_binary, hget] at h
          | .bytes bs' =>
            by_cases hemp : bs'.isEmpty
            · simp [convert_binary, hget, hemp] at h
            · simp only [convert_binary, hget, hemp, Bool.false_eq_true,
                if_false, CvtRes.ok.injEq, SinkBody.bin.injEq] at h
              obtain ⟨⟨hc, hbs⟩, hexc⟩ := h
              refine ⟨v, ?_, hlt, hc.symm, ?_, ?_⟩
              · rw [hbs]
              · rw [← hbs]
                simpa [List.isEmpty_iff] using hemp
              · rw [← hexc]
                simp [asCLongExc, hcl]
  · rintro ⟨v, hp, hlt, hc, hne, hexc⟩
    have hcl : inCLong v := inCLong_of_effIdx_lt v _ hlen hlt
    rcases hget : dec.binaryClasses[guintOfInt (cIntOfPy v)]? with _ | a
    · exact absurd (List.getElem?_eq_none_iff.mp hget) (Nat.not_le.mpr hlt)
    · rw [hp]
      simp only [convert_binary, hget]
      rw [hc, hexc]
      have : bs.isEmpty = false := by
        rcases bs with _ | _
        · exact absurd rfl hne
        · rfl
      simp [this, asCLongExc, hcl]

/-- Witness for C7 (amended): the well-formed payload (0, bytes 01 02)
on the sample decoder is delivered with exactly those bytes and
bin_class 0, and the empty-bytes payload is rejected. -/
theorem C7_binary_exact_witness :
    convert_binary sampleDec (.tuple [.int 0, .bytes [1, 2]]) =
      .ok (.bin 0 [1, 2]) none ∧
    ¬ convert_binary sampleDec (.tuple [.int 0, .bytes []]) =
        .ok (.bin 0 []) none :=
  ⟨(C7_binary_exact sampleDec (.tuple [.int 0, .bytes [1, 2]]) 0 [1, 2] none
      (by decide)).mpr ⟨0, rfl, by decide, by decide, by decide, rfl⟩,
   fun h =>
     by
       rcases (C7_binary_exact sampleDec (.tuple [.int 0, .bytes []]) 0 []
           none (by decide)).mp h with ⟨v, _, _, _, hne, _⟩
       exact hne rfl⟩


/-- An integer outside the 64-bit range is read by PyLong_AsLong as -1
(the overflow return value), so its C-int image is -1. -/
theorem cIntOfPy_overflow (w : Int) (hc : ¬ inCLong w) : cIntOfPy w = -1 := by
  unfold cIntOfPy asCLong
  rw [if_neg hc]
  decide

/-- A subtype selector whose C-int image is the Location constant fits
in a C long. -/
theorem inCLong_of_cInt_loc (w : Int) (hw : cIntOfPy w = SRD_PACKET_LOCATION) :
    inCLong w := by
  by_contra hc
  rw [cIntOfPy_overflow w hc] at hw
  exact absurd hw (by decide)

/-- A subtype selector whose C-int image is the Field constant fits in
a C long. -/
theorem inCLong_of_cInt_field (w : Int) (hw : cIntOfPy w = SRD_PACKET_FIELD) :
    inCLong w := by
  by_contra hc
  rw [cIntOfPy_overflow w hc] at hw
  exact absurd hw (by decide)

/-! ### Claim C5 -/

/-- C5 as stated is false in two places on the one-class sample
decoder: a Location payload with packet number 2^32 + 7 is delivered
with packet_num 7 (PyLong_AsLong's result is stored in a C int), not
the submitted number; and a payload whose class index 2^32 references
no declared AnnotationClass is accepted (truncated to class 0) instead
of rejected. -/
theorem C5_claim_counterexample :
    convert_packet sampleDec (.list [.int 0, .int 0, .int (2 ^ 32 + 7)]) =
      .ok (.pkt 0 0 7 none none) none ∧
    ((2 ^ 32 + 7 : Int) ≠ 7) ∧
    convert_packet sampleDec (.list [.int (2 ^ 32), .int 0, .int 7]) =
      .ok (.pkt 0 0 7 none none) none ∧
    ¬ ((2 ^ 32 : Int) < sampleDec.annotations.length) :=
  ⟨rfl, by decide, rfl, by decide⟩


/-- C5 amended: for a decoder with at most 2^31 annotation classes, the
Packet converter succeeds exactly on payloads that are a Python list
whose element 0 is an integer whose C-int truncation (read as a guint)
indexes an existing AnnotationClass and whose element 1 is an integer
whose C-int truncation selects the subtype: Location requires exactly 3
elements with element 2 an integer, Field requires exactly 5 elements
with element 2 an integer and elements 3 and 4 ASCII strings; the
delivered event carries the truncated class id, the subtype, the
truncated packet number (with a pending OverflowError when the
submitted number exceeds the 64-bit range) and, for Field, the field
name and value truncated at the first NUL character. Any other
truncated subtype value, and any length mismatch for the chosen
subtype, is rejected. -/
theorem C5_packet_exact (dec : DecoderDef) (p : PyObj) (body : SinkBody)
    (exc : Option ExcKind) (hlen : dec.annotations.length ≤ 2 ^ 31) :
    convert_packet dec p = .ok body exc ↔
      (∃ v w n, p = .list [.int v, .int w, .int n] ∧
          effIdx v < dec.annotations.length ∧
          cIntOfPy w = SRD_PACKET_LOCATION ∧
          body = .pkt (cIntOfPy v) SRD_PACKET_LOCATION (cIntOfPy n)
                   none none ∧
          exc = asCLongExc n) ∨
      (∃ v w n fn fv, p = .list [.int v, .int w, .int n, .str fn, .str fv] ∧
          effIdx v < dec.annotations.length ∧
          cIntOfPy w = SRD_PACKET_FIELD ∧
          allAscii fn = true ∧ allAscii fv = true ∧
          body = .pkt (cIntOfPy v) SRD_PACKET_FIELD (cIntOfPy n)
                   (some (cStringOf fn)) (some (cStringOf fv)) ∧
          exc = asCLongExc n) := by
  constructor
  · intro h
    match p with
    | .int _ => simp [convert_packet] at h
    | .float _ => simp [convert_packet] at h
    | .str _ => simp [convert_packet] at h
    | .bytes _ => simp [convert_packet] at h
    | .tuple _ => simp [convert_packet] at h
    | .pynone => simp [convert_packet] at h
    | .list [] => simp [convert_packet] at h
    | .list (e0 :: xs1) =>
      match e0 with
      | .float _ | .str _ | .bytes _ | .list _ | .tuple _ | .pynone =>
          simp [convert_packet] at h
      | .int v =>
        rcases hget : dec.annotations[guintOfInt (cIntOfPy v)]? with _ | a
        · simp [convert_packet, hget] at h
        · have hlt : effIdx v < dec.annotations.length := by
            rcases List.getElem?_eq_some_iff.mp hget with ⟨hh, _⟩
            exact hh
          have hclv : inCLong v := inCLong_of_effIdx_lt v _ hlen hlt
          match xs1 with
          | [] => simp [convert_packet, hget] at h
          | e1 :: xs2 =>
            match e1 with
            | .float _ | .str _ | .bytes _ | .list _ | .tuple _ | .pynone =>
                simp [convert_packet, hget] at h
            | .int w =>
              by_cases hw0 : cIntOfPy w = SRD_PACKET_LOCATION
              · have hclw : inCLong w := inCLong_of_cInt_loc w hw0
                match xs2 with
                | [] =>
                    simp [convert_packet, hget, hw0, SRD_PACKET_LOCATION,
                      SRD_PACKET_FIELD] at h
                | _ :: _ :: _ =>
                    simp [convert_packet, hget, hw0, SRD_PACKET_LOCATION,
                      SRD_PACKET_FIELD] at h
                | [e2] =>
                  match e2 with
                  | .float _ | .str _ | .bytes _ | .list _ | .tuple _
                  | .pynone =>
                      simp [convert_packet, hget, hw0, SRD_PACKET_LOCATION,
                        SRD_PACKET_FIELD] at h
                  | .int n =>
                    have hcv : convert_packet dec
                        (.list [.int v, .int w, .int n]) =
                        .ok (.pkt (cIntOfPy v) SRD_PACKET_LOCATION
                              (cIntOfPy n) none none)
                           (asCLongExc n) := by
                      simp [convert_packet, hget, hw0, hclv, hclw,
                        asCLongExc, SRD_PACKET_LOCATION, SRD_PACKET_FIELD]
                    rw [hcv] at h
                    injection h with h1 h2
                    exact Or.inl ⟨v, w, n, rfl, hlt, hw0, h1.symm, h2.symm⟩
              · by_cases hw1 : cIntOfPy w = SRD_PACKET_FIELD
                · have hclw : inCLong w := inCLong_of_cInt_field w hw1
                  match xs2 with
                  | [] =>
                      simp [convert_packet, hget, hw0, hw1,
                        SRD_PACKET_LOCATION, SRD_PACKET_FIELD] at h
                  | [_] =>
                      simp [convert_packet, hget, hw0, hw1,
                        SRD_PACKET_LOCATION, SRD_PACKET_FIELD] at h
                  | [_, _] =>
                      simp [convert_packet, hget, hw0, hw1,
                        SRD_PACKET_LOCATION, SRD_PACKET_FIELD] at h
                  | _ :: _ :: _ :: _ :: _ =>
                      simp [convert_packet, hget, hw0, hw1,
                        SRD_PACKET_LOCATION, SRD_PACKET_FIELD] at h
                  | [e2, e3, e4] =>
                    match e2 with
                    | .float _ | .str _ | .bytes _ | .list _ | .tuple _
                    | .pynone =>
                        simp [convert_packet, hget, hw0, hw1,
                          SRD_PACKET_LOCATION, SRD_PACKET_FIELD] at h
                    | .int n =>
                      match e3 with
                      | .float _ | .int _ | .bytes _ | .list _ | .tuple _
                      | .pynone =>
                          simp [convert_packet, hget, hw0, hw1,
                            SRD_PACKET_LOCATION, SRD_PACKET_FIELD] at h
                      | .str fn =>
                        by_cases hafn : allAscii fn
                        · match e4 with
                          | .float _ | .int _ | .bytes _ | .list _
                          | .tuple _ | .pynone =>
                              simp [convert_packet, hget, hw0, hw1, hafn,
                                SRD_PACKET_LOCATION, SRD_PACKET_FIELD] at h
                          | .str fv =>
                            by_cases hafv : allAscii fv
                            · have hcv : convert_packet dec
                                  (.list [.int v, .int w, .int n,
                                    .str fn, .str fv]) =
                                  .ok (.pkt (cIntOfPy v) SRD_PACKET_FIELD
                                        (cIntOfPy n) (some (cStringOf fn))
                                        (some (cStringOf fv)))
                                     (asCLongExc n) := by
                                simp [convert_packet, hget, hw0, hw1, hclv,
                                  hclw, hafn, hafv, asCLongExc,
                                  SRD_PACKET_LOCATION, SRD_PACKET_FIELD]
                              rw [hcv] at h
                              injection h with h1 h2
                              exact Or.inr ⟨v, w, n, fn, fv, rfl, hlt, hw1,
                                hafn, hafv, h1.symm, h2.symm⟩
                            · simp [convert_packet, hget, hw0, hw1, hafn,
                                hafv, SRD_PACKET_LOCATION,
                                SRD_PACKET_FIELD] at h
                        · simp [convert_packet, hget, hw0, hw1, hafn,
                            SRD_PACKET_LOCATION, SRD_PACKET_FIELD] at h
                · simp [convert_packet, hget, hw0, hw1] at h
  · rintro (⟨v, w, n, hp, hlt, hw, hbody, hexc⟩ |
            ⟨v, w, n, fn, fv, hp, hlt, hw, hafn, hafv, hbody, hexc⟩)
    · have hclv : inCLong v := inCLong_of_effIdx_lt v _ hlen hlt
      have hclw : inCLong w := inCLong_of_cInt_loc w hw
      rcases hget : dec.annotations[guintOfInt (cIntOfPy v)]? with _ | a
      · exact absurd (List.getElem?_eq_none_iff.mp hget) (Nat.not_le.mpr hlt)
      · have hcv : convert_packet dec (.list [.int v, .int w, .int n]) =
            .ok (.pkt (cIntOfPy v) SRD_PACKET_LOCATION (cIntOfPy n)
                  none none)
               (asCLongExc n) := by
          simp [convert_packet, hget, hw, hclv, hclw, asCLongExc,
            SRD_PACKET_LOCATION, SRD_PACKET_FIELD]
        rw [hp, hcv, hbody, hexc]
    · have hclv : inCLong v := inCLong_of_effIdx_lt v _ hlen hlt
      have hclw : inCLong w := inCLong_of_cInt_field w hw
      rcases hget : dec.annotations[guintOfInt (cIntOfPy v)]? with _ | a
      · exact absurd (List.getElem?_eq_none_iff.mp hget) (Nat.not_le.mpr hlt)
      · have hcv : convert_packet dec
            (.list [.int v, .int w, .int n, .str fn, .str fv]) =
            .ok (.pkt (cIntOfPy v) SRD_PACKET_FIELD (cIntOfPy n)
                  (some (cStringOf fn)) (some (cStringOf fv)))
               (asCLongExc n) := by
          simp [convert_packet, hget, hw, hclv, hclw, hafn, hafv,
            asCLongExc, SRD_PACKET_LOCATION, SRD_PACKET_FIELD]
        rw [hp, hcv, hbody, hexc]

/-- Witness for C5 (amended): a 3-element Location payload is delivered
with packet_num 7, and a 5-element Field payload is delivered with its
field name and value. -/
theorem C5_packet_exact_witness :
    convert_packet sampleDec (.list [.int 0, .int 0, .int 7]) =
      .ok (.pkt 0 0 7 none none) none ∧
    convert_packet sampleDec
        (.list [.int 0, .int 1, .int 7, .str "nm", .str "vl"]) =
      .ok (.pkt 0 1 7 (some "nm") (some "vl")) none :=
  ⟨(C5_packet_exact sampleDec (.list [.int 0, .int 0, .int 7])
      (.pkt 0 0 7 none none) none (by decide)).mpr
      (Or.inl ⟨0, 0, 7, rfl, by decide, by decide, rfl, by decide⟩),
   (C5_packet_exact sampleDec
      (.list [.int 0, .int 1, .int 7, .str "nm", .str "vl"])
      (.pkt 0 1 7 (some "nm") (some "vl")) none (by decide)).mpr
      (Or.inr ⟨0, 1, 7, "nm", "vl", rfl, by decide, by decide, rfl, rfl,
        rfl, by decide⟩)⟩

